import Mathlib

/-
  Shallow embedding of the wap3_arcjs server (src/unnamed/part_000).

  The program is an Express HTTP surface over a single whatsapp-web.js
  session.  Its global mutable state consists of the variables
  client, qrCodeData, isClientReady and isInitializing (lines 14-17),
  plus a p-queue dispatch queue with concurrency 3 (line 19).

  Here the state is modelled explicitly, external client handles are
  modelled by numeric ids allocated from a counter, and every externally
  visible effect (constructing or destroying a handle, a startup attempt,
  the retry delay, a send) is recorded in an event trace.  Startup
  attempts of the external library are modelled by an oracle
  startup : Nat -> Option String giving, for each attempt index, none on
  success or the thrown error message on failure.
-/

namespace Wap3

/-- Media payload as constructed by whatsapp-web.js MessageMedia
(mimetype, base64 data, filename), src/unnamed/part_000 lines 232-236. -/
structure MessageMedia where
  mimetype : String
  data : String
  filename : String
deriving Repr, DecidableEq

/-- Result of the media fetch (axios.get with responseType arraybuffer,
line 231): the content-type response header and the body bytes. -/
structure FetchResponse where
  contentType : String
  bytes : List Nat
deriving Repr, DecidableEq

/-- The global mutable session state of the server:
client (line 14, a handle id when a client object is assigned),
qrCodeData (line 15), isClientReady (line 16), isInitializing (line 17). -/
structure SessionState where
  client : Option Nat
  qrCodeData : Option String
  isClientReady : Bool
  isInitializing : Bool
deriving Repr, DecidableEq

/-- The state at process start (lines 14-17): no client, no QR data,
not ready, not initializing. -/
def absentState : SessionState :=
  { client := none, qrCodeData := none, isClientReady := false, isInitializing := false }

/-- Externally visible effects of the server, recorded as a trace. -/
inductive Event where
  | destroyClient (h : Nat)
  | constructClient (h : Nat)
  | startupAttempt (h : Nat)
  | retryDelay (ms : Nat)
  | sendText (h : Nat) (chatId : String) (message : String)
  | sendMedia (h : Nat) (chatId : String) (media : MessageMedia)
deriving Repr, DecidableEq

/-- Handler for the qr signal (lines 112-115): stores the data-URL
encoding of the challenge into qrCodeData.  The qrcode.toDataURL
encoding is external; its output is the dataUrl argument. -/
def onQr (dataUrl : String) (st : SessionState) : SessionState :=
  { st with qrCodeData := some dataUrl }

/-- Handler for the ready signal (lines 117-121): sets isClientReady
and clears qrCodeData. -/
def onReady (st : SessionState) : SessionState :=
  { st with isClientReady := true, qrCodeData := none }

/-- Handler for the auth_failure signal (lines 123-125): logs only,
mutates no state. -/
def onAuthFailure (st : SessionState) : SessionState :=
  st

/-- Handler for the disconnected signal (lines 127-130): sets
isClientReady to false.  It does not touch qrCodeData or client. -/
def onDisconnected (st : SessionState) : SessionState :=
  { st with isClientReady := false }

/-- closeWhatsAppSession (lines 185-193): if a client handle exists,
destroy it and null the variable; then unconditionally clear
isClientReady, isInitializing and qrCodeData.  Returns the new state
and the trace of destroy effects. -/
def closeWhatsAppSession (st : SessionState) : SessionState × List Event :=
  match st.client with
  | some h => (absentState, [Event.destroyClient h])
  | none => (absentState, [])

/-- Result of the retry loop: the returned or thrown value, the state,
the next fresh handle id, and the event trace. -/
structure LoopResult where
  result : Except String Bool
  st : SessionState
  nextId : Nat
  trace : List Event

/-- Body of the for-loop of initializeWhatsAppClient (lines 95-140),
recursing on the number of remaining iterations (rem = retries - i).
Each iteration constructs a fresh client (assigning the global client
variable, line 102), registers the four signal handlers, and awaits
client.initialize() whose outcome is startup i.  On success it returns
true; on failure of the last iteration (i = retries - 1, i.e. rem = 1)
it rethrows the error; otherwise it sleeps 5000 ms and retries. -/
def initAttempts (startup : Nat → Option String) :
    Nat → Nat → SessionState → Nat → List Event → LoopResult
  | 0, _, st, nextId, tr => ⟨.ok false, st, nextId, tr⟩
  | rem + 1, i, st, nextId, tr =>
    let st' := { st with client := some nextId }
    let tr' := tr ++ [Event.constructClient nextId, Event.startupAttempt nextId]
    match startup i with
    | none => ⟨.ok true, st', nextId + 1, tr'⟩
    | some e =>
      if rem = 0 then ⟨.error e, st', nextId + 1, tr'⟩
      else initAttempts startup rem (i + 1) st' (nextId + 1) (tr' ++ [Event.retryDelay 5000])

/-- initializeWhatsAppClient (lines 94-142): runs the retry loop from
attempt index 0 with an empty local trace; the only call site (line
154) uses the default retries = 3. -/
def initWhatsAppClient (startup : Nat → Option String) (retries : Nat)
    (st : SessionState) (nextId : Nat) : LoopResult :=
  initAttempts startup retries 0 st nextId []

/-- Recognizes startup-attempt events in a trace. -/
def isAttempt : Event → Bool
  | .startupAttempt _ => true
  | _ => false

/-- Number of invocations of the startup routine recorded in a trace. -/
def countAttempts (tr : List Event) : Nat :=
  tr.countP isAttempt

/-- The JSON response of the /initialize route: the success body with the
current qrCodeData (line 156), the 500 body of the success = false
branch (line 158), or the 500 body with error details of the catch
branch (lines 163-167). -/
inductive InitResult where
  | success (qr : Option String)
  | failedNoSuccess
  | failedError (details : String)
deriving Repr, DecidableEq

/-- Result of the /initialize route handler. -/
structure InitHandlerResult where
  response : InitResult
  st : SessionState
  nextId : Nat
  trace : List Event

/-- Prologue of the /initialize route handler (lines 145-151): if
isInitializing or isClientReady, first closeWhatsAppSession; then set
isInitializing and clear isClientReady and qrCodeData.  Returns the
state and the trace of the forced teardown, if any. -/
def preInit (st : SessionState) : SessionState × List Event :=
  let cl := if st.isInitializing || st.isClientReady then closeWhatsAppSession st else (st, [])
  ({ cl.1 with isInitializing := true, isClientReady := false, qrCodeData := none }, cl.2)

/-- The /initialize route handler (lines 144-171): the prologue above,
then initializeWhatsAppClient with the default retries = 3; the
response maps the returned or thrown value (success with the current
qrCodeData, the 500 of the false branch, or the 500 with details of the
catch branch); the finally block clears isInitializing. -/
def initRoute (startup : Nat → Option String) (st : SessionState) (nextId : Nat) :
    InitHandlerResult :=
  let pre := preInit st
  let lr := initWhatsAppClient startup 3 pre.1 nextId
  let stF := { lr.st with isInitializing := false }
  let resp :=
    match lr.result with
    | .ok true => InitResult.success stF.qrCodeData
    | .ok false => InitResult.failedNoSuccess
    | .error e => InitResult.failedError e
  ⟨resp, stF, lr.nextId, pre.2 ++ lr.trace⟩

/-- Body of the /status route (lines 178-183). -/
structure StatusBody where
  status : String
  isReady : Bool
deriving Repr, DecidableEq

/-- The /status route handler (lines 178-183): a pure read of
isClientReady. -/
def statusRoute (st : SessionState) : StatusBody :=
  { status := if st.isClientReady then "WhatsApp está listo" else "WhatsApp no está iniciado",
    isReady := st.isClientReady }

/-- The /close route handler (lines 173-176): closeWhatsAppSession, then
always respond with the success message. -/
def closeRoute (st : SessionState) : String × SessionState × List Event :=
  let cl := closeWhatsAppSession st
  ("Sesión de WhatsApp cerrada.", cl.1, cl.2)

/-- A dispatch job as enqueued by the send routes (lines 207-210 and
230-240): the captured query parameters. -/
inductive Job where
  | text (phone : String) (message : String)
  | media (phone : String) (message : String) (fileUrl : String)
deriving Repr, DecidableEq

/-- Modelled from the spec: the bounded-concurrency FIFO dispatch queue.
The repository only constructs it (new PQueue with concurrency 3, line
19); the p-queue implementation itself is an external dependency, not
part of this repository, so its state is modelled from the spec: an
ordered pending sequence, the jobs currently in flight, and the
concurrency limit fixed at construction. -/
structure PQueueState where
  pending : List Job
  running : List Job
  concurrency : Nat
deriving Repr, DecidableEq

/-- The queue constructed at line 19: empty, concurrency 3. -/
def queue : PQueueState :=
  { pending := [], running := [], concurrency := 3 }

/-- Modelled from the spec: queue.add — if a concurrency slot is free the
job starts running immediately, otherwise it is appended to the pending
sequence (FIFO admission). -/
def qAdd (q : PQueueState) (j : Job) : PQueueState :=
  if q.running.length < q.concurrency then { q with running := q.running ++ [j] }
  else { q with pending := q.pending ++ [j] }

/-- Modelled from the spec: completion of an in-flight job — it leaves
the running set, and if a slot is now free the head of the pending
sequence is admitted into execution. -/
def qComplete (q : PQueueState) : PQueueState :=
  let q' := { q with running := q.running.drop 1 }
  if q'.running.length < q'.concurrency then
    match q'.pending with
    | [] => q'
    | j :: rest => { q' with running := q'.running ++ [j], pending := rest }
  else q'

/-- Queue transitions: a submission or a completion. -/
inductive QOp where
  | add (j : Job)
  | complete
deriving Repr, DecidableEq

/-- One queue transition. -/
def qstep (q : PQueueState) (op : QOp) : PQueueState :=
  match op with
  | .add j => qAdd q j
  | .complete => qComplete q

/-- Response of the send routes: 400 missing params (lines 198-200,
221-223), 503 not ready (lines 202-204, 225-227), success JSON, or the
500 catch branch. -/
inductive SendResponse where
  | badRequest
  | notReady
  | sent
  | sendError
deriving Repr, DecidableEq

/-- JavaScript falsiness of a query parameter string: absent, or present
but empty (the empty string is falsy in the checks at lines 198 and
221). -/
def isFalsyParam : Option String → Bool
  | none => true
  | some s => s.isEmpty

/-- The /send-message route handler (lines 195-216) up to enqueueing:
400 when phone or message is missing, 503 when isClientReady is false
(before touching the queue), otherwise the text job is submitted to the
queue.  Returns the response and the queue state. -/
def sendMessageRoute (phone message : Option String) (st : SessionState)
    (q : PQueueState) : SendResponse × PQueueState :=
  if isFalsyParam phone || isFalsyParam message then (.badRequest, q)
  else if !st.isClientReady then (.notReady, q)
  else (.sent, qAdd q (Job.text (phone.getD "") (message.getD "")))

/-- The /send-message_media route handler (lines 218-246) up to
enqueueing: 400 when phone, message or fileUrl is missing, 503 when
isClientReady is false (before touching the queue), otherwise the media
job is submitted to the queue. -/
def sendMediaRoute (phone message fileUrl : Option String) (st : SessionState)
    (q : PQueueState) : SendResponse × PQueueState :=
  if isFalsyParam phone || isFalsyParam message || isFalsyParam fileUrl then (.badRequest, q)
  else if !st.isClientReady then (.notReady, q)
  else (.sent, qAdd q (Job.media (phone.getD "") (message.getD "") (fileUrl.getD "")))

/-- The base64 alphabet used by Buffer.toString with base64 encoding. -/
def base64Alphabet : List Char :=
  "ABCDEFGHIJKLMNOPQRSTUVWXYZabcdefghijklmnopqrstuvwxyz0123456789+/".toList

/-- Character of the base64 alphabet at a sextet value. -/
def b64Char (n : Nat) : Char :=
  base64Alphabet.getD n 'A'

/-- Standard base64 encoding of a byte sequence (bytes in 0..255), as
produced by Buffer.from(data).toString at line 234. -/
def base64Encode : List Nat → String
  | [] => ""
  | [a] => String.mk [b64Char (a / 4), b64Char (a % 4 * 16), '=', '=']
  | [a, b] => String.mk [b64Char (a / 4), b64Char (a % 4 * 16 + b / 16), b64Char (b % 16 * 4), '=']
  | a :: b :: c :: rest =>
    String.mk [b64Char (a / 4), b64Char (a % 4 * 16 + b / 16),
      b64Char (b % 16 * 4 + c / 64), b64Char (c % 64)] ++ base64Encode rest

/-- Splitting a character sequence at every slash, as the JavaScript
split does: adjacent separators and leading or trailing separators
yield empty segments, and a string with no separator yields itself. -/
def splitSlashAux (cur : List Char) : List Char → List String
  | [] => [String.mk cur.reverse]
  | ch :: rest =>
    if ch = '/' then String.mk cur.reverse :: splitSlashAux [] rest
    else splitSlashAux (ch :: cur) rest

/-- Filename derivation at line 235: fileUrl.split on the slash, then
pop, i.e. the final slash-separated segment. -/
def urlFilename (fileUrl : String) : String :=
  (splitSlashAux [] fileUrl.data).getLastD ""

/-- The closure enqueued by /send-message (lines 207-210), run when the
queue admits it: reads the global client variable at execution time
(no readiness re-check) and sends the message to the phone at the fixed
c.us suffix.  When client is null the closure throws (error); otherwise
it performs the send against the current handle. -/
def runTextJob (st : SessionState) (phone message : String) : Except Unit (List Event) :=
  match st.client with
  | none => .error ()
  | some h => .ok [Event.sendText h (phone ++ "@c.us") message]

/-- The closure enqueued by /send-message_media (lines 230-240): fetch
the file (outcome given by fetchResult: none when axios.get rejects),
then build the MessageMedia from the content-type header, the base64
body and the URL's last segment, then send the text first and the media
second to the same destination.  A failed fetch fails the job before
any send; a null client makes the sends throw. -/
def runMediaJob (st : SessionState) (phone message fileUrl : String)
    (fetchResult : Option FetchResponse) : Except Unit (List Event) :=
  match fetchResult with
  | none => .error ()
  | some resp =>
    let media : MessageMedia :=
      { mimetype := resp.contentType, data := base64Encode resp.bytes,
        filename := urlFilename fileUrl }
    match st.client with
    | none => .error ()
    | some h =>
      .ok [Event.sendText h (phone ++ "@c.us") message,
           Event.sendMedia h (phone ++ "@c.us") media]

/-- The retry loop only ever appends to the trace it is given. -/
theorem initAttempts_trace_extends (startup : Nat → Option String) :
    ∀ rem i st n tr, ∃ s, (initAttempts startup rem i st n tr).trace = tr ++ s := by
  intro rem
  induction rem with
  | zero => intro i st n tr; exact ⟨[], by simp [initAttempts]⟩
  | succ rem ih =>
    intro i st n tr
    cases h : startup i with
    | none =>
      exact ⟨[Event.constructClient n, Event.startupAttempt n], by simp [initAttempts, h]⟩
    | some e =>
      by_cases hr : rem = 0
      · subst hr
        exact ⟨[Event.constructClient n, Event.startupAttempt n], by simp [initAttempts, h]⟩
      · obtain ⟨s, hs⟩ := ih (i + 1) { st with client := some n } (n + 1)
          (tr ++ [Event.constructClient n, Event.startupAttempt n, Event.retryDelay 5000])
        refine ⟨[Event.constructClient n, Event.startupAttempt n, Event.retryDelay 5000] ++ s, ?_⟩
        simp [initAttempts, h, hr, hs]

/-- The trace of initializeWhatsAppClient starts with the construction
of the first fresh client followed by its startup attempt. -/
theorem initClient_trace_head (startup : Nat → Option String) (st : SessionState) (n : Nat) :
    ∃ s, (initWhatsAppClient startup 3 st n).trace
      = Event.constructClient n :: Event.startupAttempt n :: s := by
  cases h0 : startup 0 with
  | none => exact ⟨[], by simp [initWhatsAppClient, initAttempts, h0]⟩
  | some e0 =>
    cases h1 : startup 1 with
    | none =>
      exact ⟨[Event.retryDelay 5000, Event.constructClient (n + 1),
        Event.startupAttempt (n + 1)], by simp [initWhatsAppClient, initAttempts, h0, h1]⟩
    | some e1 =>
      cases h2 : startup 2 with
      | none =>
        exact ⟨[Event.retryDelay 5000, Event.constructClient (n + 1),
          Event.startupAttempt (n + 1), Event.retryDelay 5000,
          Event.constructClient (n + 1 + 1), Event.startupAttempt (n + 1 + 1)],
          by simp [initWhatsAppClient, initAttempts, h0, h1, h2]⟩
      | some e2 =>
        exact ⟨[Event.retryDelay 5000, Event.constructClient (n + 1),
          Event.startupAttempt (n + 1), Event.retryDelay 5000,
          Event.constructClient (n + 1 + 1), Event.startupAttempt (n + 1 + 1)],
          by simp [initWhatsAppClient, initAttempts, h0, h1, h2]⟩

/-- C1: the startup of the external client is wrapped in a bounded retry
loop with at most 3 attempts and a fixed 5000 ms delay between
consecutive attempts.  For a startup oracle that fails the first k
attempts (k less than 3) and succeeds on attempt k + 1, the loop
reports success with exactly k + 1 startup invocations in its trace;
for an oracle that always fails, it throws after exactly 3 startup
invocations. -/
theorem init_retry_attempt_counts (startup alwaysFail : Nat → Option String)
    (st st' : SessionState) (n n' k : Nat)
    (hk : k < 3)
    (hfail : ∀ i, i < k → (startup i).isSome = true)
    (hsucc : startup k = none)
    (haf : ∀ i, (alwaysFail i).isSome = true) :
    ((initWhatsAppClient startup 3 st n).result = Except.ok true
      ∧ countAttempts (initWhatsAppClient startup 3 st n).trace = k + 1)
    ∧ ((∃ e, (initWhatsAppClient alwaysFail 3 st' n').result = Except.error e)
      ∧ countAttempts (initWhatsAppClient alwaysFail 3 st' n').trace = 3) := by
  constructor
  · interval_cases k
    · simp [initWhatsAppClient, initAttempts, hsucc, countAttempts, isAttempt]
    · obtain ⟨e0, he0⟩ := Option.isSome_iff_exists.mp (hfail 0 (by omega))
      simp [initWhatsAppClient, initAttempts, he0, hsucc, countAttempts, isAttempt]
    · obtain ⟨e0, he0⟩ := Option.isSome_iff_exists.mp (hfail 0 (by omega))
      obtain ⟨e1, he1⟩ := Option.isSome_iff_exists.mp (hfail 1 (by omega))
      simp [initWhatsAppClient, initAttempts, he0, he1, hsucc, countAttempts, isAttempt]
  · obtain ⟨e0, he0⟩ := Option.isSome_iff_exists.mp (haf 0)
    obtain ⟨e1, he1⟩ := Option.isSome_iff_exists.mp (haf 1)
    obtain ⟨e2, he2⟩ := Option.isSome_iff_exists.mp (haf 2)
    refine ⟨⟨e2, ?_⟩, ?_⟩ <;>
      simp [initWhatsAppClient, initAttempts, he0, he1, he2, countAttempts, isAttempt]

/-- Witness for C1 at concrete inputs: an oracle failing only attempt 0
succeeds with 2 invocations; an always-failing oracle throws after 3. -/
theorem init_retry_attempt_counts_witness :
    (((initWhatsAppClient (fun i => if i = 0 then some "e0" else none) 3 absentState 0).result
        = Except.ok true
      ∧ countAttempts
          (initWhatsAppClient (fun i => if i = 0 then some "e0" else none) 3 absentState 0).trace
        = 1 + 1)
    ∧ ((∃ e, (initWhatsAppClient (fun _ => some "boom") 3 absentState 5).result = Except.error e)
      ∧ countAttempts (initWhatsAppClient (fun _ => some "boom") 3 absentState 5).trace = 3)) :=
  init_retry_attempt_counts (fun i => if i = 0 then some "e0" else none) (fun _ => some "boom")
    absentState absentState 0 5 1 (by omega)
    (fun i hi => by
      have h0 : i = 0 := Nat.lt_one_iff.mp hi
      simp [h0])
    (by simp)
    (fun i => rfl)

/-- C10: the retry helper never returns false — for every behavior of
the startup oracle it either returns true or throws — so the /initialize
branch answering the 500 of a false return is unreachable. -/
theorem retry_helper_never_false (startup : Nat → Option String) (st : SessionState) (n : Nat) :
    (initWhatsAppClient startup 3 st n).result ≠ Except.ok false
    ∧ (initRoute startup st n).response ≠ InitResult.failedNoSuccess := by
  have key : ∀ (st' : SessionState) (m : Nat),
      (initWhatsAppClient startup 3 st' m).result ≠ Except.ok false := by
    intro st' m
    cases h0 : startup 0 <;> cases h1 : startup 1 <;> cases h2 : startup 2 <;>
      simp [initWhatsAppClient, initAttempts, h0, h1, h2]
  refine ⟨key st n, ?_⟩
  have hres := key (preInit st).1 n
  simp only [initRoute]
  rcases h : (initWhatsAppClient startup 3 (preInit st).1 n).result with e | b
  · simp
  · cases b
    · exact absurd h hres
    · simp

/-- C2 counterexample: starting from the absent state with a startup
oracle that always throws, the /initialize call answers the 500 with
error details, yet the global client variable still holds the last
constructed handle — it is not cleared, contradicting the claim that no
live client handle remains. -/
theorem init_exhausted_client_remains :
    (initRoute (fun _ => some "boom") absentState 0).st.client ≠ none
    ∧ (initRoute (fun _ => some "boom") absentState 0).st.client = some 2
    ∧ (initRoute (fun _ => some "boom") absentState 0).response
        = InitResult.failedError "boom" := by
  refine ⟨?_, rfl, rfl⟩
  simp [initRoute, preInit, closeWhatsAppSession, initWhatsAppClient, initAttempts]

/-- C2 amended: if all 3 startup attempts fail, the /initialize call
answers the 500 with the last attempt's error details, the ready flag is
false, the initializing marker is false and the challenge payload is
cleared — but the last constructed client handle remains assigned to
the global client variable instead of being destroyed and dropped. -/
theorem init_exhausted_state (startup : Nat → Option String) (st : SessionState) (n : Nat)
    (hf : ∀ i, i < 3 → (startup i).isSome = true) :
    (∃ e, (initRoute startup st n).response = InitResult.failedError e)
    ∧ (initRoute startup st n).st.isClientReady = false
    ∧ (initRoute startup st n).st.isInitializing = false
    ∧ (initRoute startup st n).st.qrCodeData = none
    ∧ (initRoute startup st n).st.client = some (n + 2) := by
  obtain ⟨e0, h0⟩ := Option.isSome_iff_exists.mp (hf 0 (by omega))
  obtain ⟨e1, h1⟩ := Option.isSome_iff_exists.mp (hf 1 (by omega))
  obtain ⟨e2, h2⟩ := Option.isSome_iff_exists.mp (hf 2 (by omega))
  refine ⟨⟨e2, ?_⟩, ?_, ?_, ?_, ?_⟩ <;>
    simp [initRoute, preInit, initWhatsAppClient, initAttempts, h0, h1, h2]

/-- Witness for the amended C2 at a concrete ready-state input. -/
theorem init_exhausted_state_witness :
    (∃ e, (initRoute (fun _ => some "x")
        { client := some 7, qrCodeData := some "qr", isClientReady := true,
          isInitializing := false } 1).response = InitResult.failedError e)
    ∧ (initRoute (fun _ => some "x")
        { client := some 7, qrCodeData := some "qr", isClientReady := true,
          isInitializing := false } 1).st.isClientReady = false
    ∧ (initRoute (fun _ => some "x")
        { client := some 7, qrCodeData := some "qr", isClientReady := true,
          isInitializing := false } 1).st.isInitializing = false
    ∧ (initRoute (fun _ => some "x")
        { client := some 7, qrCodeData := some "qr", isClientReady := true,
          isInitializing := false } 1).st.qrCodeData = none
    ∧ (initRoute (fun _ => some "x")
        { client := some 7, qrCodeData := some "qr", isClientReady := true,
          isInitializing := false } 1).st.client = some (1 + 2) :=
  init_exhausted_state (fun _ => some "x")
    { client := some 7, qrCodeData := some "qr", isClientReady := true,
      isInitializing := false } 1 (fun _ _ => rfl)

/-- C5: calling /initialize while the session is ready or initializing
with a live handle performs the forced teardown of the prior handle
strictly before any new client is constructed: the event trace begins
with the destruction of the old handle followed by the construction of
the new one. -/
theorem reinit_teardown_precedes_construction (startup : Nat → Option String)
    (st : SessionState) (n h : Nat)
    (hact : (st.isInitializing || st.isClientReady) = true)
    (hcl : st.client = some h) :
    (initRoute startup st n).trace.take 2
      = [Event.destroyClient h, Event.constructClient n] := by
  obtain ⟨s, hs⟩ := initClient_trace_head startup (preInit st).1 n
  have hpre2 : (preInit st).2 = [Event.destroyClient h] := by
    simp [preInit, closeWhatsAppSession, hact, hcl]
  have htr : (initRoute startup st n).trace
      = (preInit st).2 ++ (initWhatsAppClient startup 3 (preInit st).1 n).trace := rfl
  rw [htr, hpre2, hs]
  rfl

/-- Witness for C5: a ready state with handle 7; the trace of the second
initialization starts with destroying handle 7, then constructing the
fresh client 0. -/
theorem reinit_teardown_precedes_construction_witness :
    ((true || true) = true
      ∧ (initRoute (fun _ => none)
          { client := some 7, qrCodeData := none, isClientReady := true,
            isInitializing := true } 0).trace.take 2
        = [Event.destroyClient 7, Event.constructClient 0]) :=
  ⟨rfl, reinit_teardown_precedes_construction (fun _ => none)
    { client := some 7, qrCodeData := none, isClientReady := true, isInitializing := true }
    0 7 rfl rfl⟩

/-- Submissions to a saturated queue all go to the pending sequence, in
order. -/
theorem foldl_qAdd_saturated (jobs : List Job) :
    ∀ q : PQueueState, q.concurrency ≤ q.running.length →
      jobs.foldl qAdd q = { q with pending := q.pending ++ jobs } := by
  induction jobs with
  | nil => intro q _; simp
  | cons j rest ih =>
    intro q hq
    rw [List.foldl_cons]
    have hstep : qAdd q j = { q with pending := q.pending ++ [j] } := by
      simp [qAdd, Nat.not_lt.mpr hq]
    rw [hstep, ih _ (by simpa using hq)]
    simp

/-- One queue transition does not change the concurrency limit. -/
theorem qstep_concurrency (q : PQueueState) (op : QOp) :
    (qstep q op).concurrency = q.concurrency := by
  cases op with
  | add j => by_cases h : q.running.length < q.concurrency <;> simp [qstep, qAdd, h]
  | complete =>
    simp only [qstep, qComplete]
    split
    · cases q.pending <;> simp
    · simp

/-- One queue transition preserves the concurrency bound on the
in-flight jobs. -/
theorem qstep_bound (q : PQueueState) (op : QOp) (h : q.running.length ≤ q.concurrency) :
    (qstep q op).running.length ≤ q.concurrency := by
  cases op with
  | add j =>
    by_cases hlt : q.running.length < q.concurrency <;> simp [qstep, qAdd, hlt] <;> omega
  | complete =>
    simp only [qstep, qComplete]
    split
    · rename_i hlt
      cases hp : q.pending with
      | nil => simp at hlt ⊢; omega
      | cons j rest =>
        simp [hp] at hlt ⊢
        omega
    · rename_i hlt
      simp at hlt ⊢
      omega

/-- The concurrency bound holds in every state reachable by queue
transitions. -/
theorem foldl_qstep_bound (ops : List QOp) :
    ∀ q : PQueueState, q.running.length ≤ q.concurrency →
      (ops.foldl qstep q).running.length ≤ (ops.foldl qstep q).concurrency := by
  induction ops with
  | nil => intro q h; simpa using h
  | cons op rest ih =>
    intro q h
    rw [List.foldl_cons]
    exact ih _ (by rw [qstep_concurrency]; exact qstep_bound q op h)

/-- The concurrency limit is fixed across any sequence of transitions. -/
theorem foldl_qstep_concurrency (ops : List QOp) :
    ∀ q : PQueueState, (ops.foldl qstep q).concurrency = q.concurrency := by
  induction ops with
  | nil => intro q; rfl
  | cons op rest ih =>
    intro q
    rw [List.foldl_cons, ih, qstep_concurrency]

/-- C4: the dispatch queue is constructed with concurrency limit 3; in
every state reachable from the freshly constructed queue the number of
in-flight jobs never exceeds 3, and submitting any burst of jobs while
ready results in the first 3 running and the rest pending, admitted in
FIFO submission order. -/
theorem queue_bound_and_fifo (jobs : List Job) (ops : List QOp) :
    ((jobs.foldl qAdd queue).running = jobs.take 3
      ∧ (jobs.foldl qAdd queue).pending = jobs.drop 3)
    ∧ (ops.foldl qstep queue).running.length ≤ 3 := by
  constructor
  · rcases jobs with _ | ⟨a, _ | ⟨b, _ | ⟨c, rest⟩⟩⟩
    · simp [queue]
    · simp [queue, qAdd]
    · simp [queue, qAdd]
    · have hstep : (a :: b :: c :: rest).foldl qAdd queue
          = rest.foldl qAdd { pending := [], running := [a, b, c], concurrency := 3 } := rfl
      rw [hstep, foldl_qAdd_saturated rest _ (by simp)]
      simp
  · have hb := foldl_qstep_bound ops queue (by simp [queue])
    rwa [foldl_qstep_concurrency ops queue] at hb

/-- C3: a send submission (text or media) with its parameters present,
made while the ready flag is false, is answered 503 immediately and the
dispatch queue is returned unchanged — no job is enqueued, so neither
the pending depth nor the in-flight count moves. -/
theorem send_not_ready_rejected (phone message fileUrl : Option String)
    (st : SessionState) (q : PQueueState)
    (hp : isFalsyParam phone = false) (hm : isFalsyParam message = false)
    (hf : isFalsyParam fileUrl = false)
    (hr : st.isClientReady = false) :
    sendMessageRoute phone message st q = (SendResponse.notReady, q)
    ∧ sendMediaRoute phone message fileUrl st q = (SendResponse.notReady, q) := by
  simp [sendMessageRoute, sendMediaRoute, hp, hm, hf, hr]

/-- Witness for C3 at concrete inputs: valid parameters, absent session,
fresh queue. -/
theorem send_not_ready_rejected_witness :
    sendMessageRoute (some "5551234567") (some "hi") absentState queue
        = (SendResponse.notReady, queue)
    ∧ sendMediaRoute (some "5551234567") (some "hi") (some "http://host/pic.png")
        absentState queue = (SendResponse.notReady, queue) :=
  send_not_ready_rejected (some "5551234567") (some "hi") (some "http://host/pic.png")
    absentState queue rfl rfl rfl rfl

/-- C6 amended: the qr handler stores the challenge payload; the ready
handler sets the ready flag and clears the challenge; the auth_failure
handler changes no state; the disconnected handler only clears the
ready flag — it leaves the challenge payload and the client handle
unchanged rather than returning the whole state to absent. -/
theorem signal_handlers_effects (st : SessionState) (dataUrl : String) :
    ((onQr dataUrl st).qrCodeData = some dataUrl
      ∧ (onQr dataUrl st).isClientReady = st.isClientReady
      ∧ (onQr dataUrl st).client = st.client)
    ∧ ((onReady st).isClientReady = true
      ∧ (onReady st).qrCodeData = none
      ∧ (onReady st).client = st.client)
    ∧ onAuthFailure st = st
    ∧ ((onDisconnected st).isClientReady = false
      ∧ (onDisconnected st).qrCodeData = st.qrCodeData
      ∧ (onDisconnected st).client = st.client) := by
  simp [onQr, onReady, onAuthFailure, onDisconnected]

/-- C6 counterexample: from a ready state holding a challenge payload,
the disconnected handler leaves the payload in place, so it does not
return the state to absent with the challenge cleared as claimed. -/
theorem disconnected_keeps_challenge :
    (onDisconnected
      { client := some 0, qrCodeData := some "qr-payload",
        isClientReady := true, isInitializing := false }).qrCodeData ≠ none
    ∧ (onDisconnected
      { client := some 0, qrCodeData := some "qr-payload",
        isClientReady := true, isInitializing := false }).client ≠ none := by
  constructor <;> simp [onDisconnected]

/-- C7: /close always succeeds with the fixed message and resets the
state to absent — ready flag false, initializing marker false, challenge
cleared, handle dropped (and destroyed when one existed) — from any
state, and a second close from the resulting state is a no-op yielding
absent again; afterwards the status read reports not ready. -/
theorem close_idempotent_absent (st : SessionState) :
    (closeRoute st).1 = "Sesión de WhatsApp cerrada."
    ∧ (closeRoute st).2.1 = absentState
    ∧ (statusRoute (closeRoute st).2.1).isReady = false
    ∧ (closeRoute (closeRoute st).2.1).2.1 = absentState
    ∧ (∀ h, st.client = some h → (closeRoute st).2.2 = [Event.destroyClient h])
    ∧ (st.client = none → (closeRoute st).2.2 = []) := by
  rcases hc : st.client with _ | h <;>
    simp [closeRoute, closeWhatsAppSession, statusRoute, absentState, hc]

/-- Witness for C7 at a concrete live-session state. -/
theorem close_idempotent_absent_witness :
    (closeRoute
      { client := some 4, qrCodeData := some "q", isClientReady := true,
        isInitializing := true }).2.1 = absentState
    ∧ (closeRoute
      { client := some 4, qrCodeData := some "q", isClientReady := true,
        isInitializing := true }).2.2 = [Event.destroyClient 4] :=
  ⟨(close_idempotent_absent _).2.1,
   (close_idempotent_absent _).2.2.2.2.1 4 rfl⟩

/-- C8: the media job fails with no send when the fetch fails; otherwise
it performs exactly two sequential sends to the c.us destination — the
text first, then a media payload whose content type is the fetch
response header, whose filename is the final slash-separated segment of
the URL, and whose body is the base64 encoding of the fetched bytes;
bytes 0x01 0x02 encode to AQI=. -/
theorem media_job_two_sends (st : SessionState) (phone message fileUrl : String)
    (resp : FetchResponse) (h : Nat) (hcl : st.client = some h) :
    runMediaJob st phone message fileUrl none = Except.error ()
    ∧ runMediaJob st phone message fileUrl (some resp)
        = Except.ok [Event.sendText h (phone ++ "@c.us") message,
            Event.sendMedia h (phone ++ "@c.us")
              { mimetype := resp.contentType, data := base64Encode resp.bytes,
                filename := urlFilename fileUrl }]
    ∧ base64Encode [1, 2] = "AQI="
    ∧ urlFilename "http://host/files/pic.png" = "pic.png" := by
  refine ⟨rfl, ?_, ?_, ?_⟩
  · simp [runMediaJob, hcl]
  · rfl
  · rfl

/-- Witness for C8 at the spec's concrete scenario: content type
image/png, bytes 0x01 0x02, URL ending in pic.png. -/
theorem media_job_two_sends_witness :
    runMediaJob
      { client := some 9, qrCodeData := none, isClientReady := true,
        isInitializing := false } "555" "hi" "http://host/files/pic.png" none
      = Except.error ()
    ∧ runMediaJob
      { client := some 9, qrCodeData := none, isClientReady := true,
        isInitializing := false } "555" "hi" "http://host/files/pic.png"
        (some { contentType := "image/png", bytes := [1, 2] })
      = Except.ok [Event.sendText 9 ("555" ++ "@c.us") "hi",
          Event.sendMedia 9 ("555" ++ "@c.us")
            { mimetype := "image/png", data := base64Encode [1, 2],
              filename := urlFilename "http://host/files/pic.png" }]
    ∧ base64Encode [1, 2] = "AQI="
    ∧ urlFilename "http://host/files/pic.png" = "pic.png" :=
  media_job_two_sends
    { client := some 9, qrCodeData := none, isClientReady := true, isInitializing := false }
    "555" "hi" "http://host/files/pic.png" { contentType := "image/png", bytes := [1, 2] } 9 rfl

/-- C9: the readiness flag is checked only at submission, never by the
queued closure: the text job reads the global client at execution time,
so after a disconnected signal (ready flag now false) it still sends
against the same handle; clearing only the ready flag changes nothing
about the job's behavior; and when close has nulled the handle the job
runs and throws instead of being skipped. -/
theorem job_no_readiness_recheck (st : SessionState) (phone message : String) (h : Nat)
    (hcl : st.client = some h) :
    runTextJob (onDisconnected st) phone message
        = Except.ok [Event.sendText h (phone ++ "@c.us") message]
    ∧ runTextJob { st with isClientReady := false } phone message
        = runTextJob st phone message
    ∧ runTextJob st phone message = Except.ok [Event.sendText h (phone ++ "@c.us") message]
    ∧ runTextJob (closeWhatsAppSession st).1 phone message = Except.error () := by
  refine ⟨?_, ?_, ?_, ?_⟩ <;>
    simp [runTextJob, onDisconnected, closeWhatsAppSession, hcl, absentState]

/-- Witness for C9 at a concrete ready state with handle 9. -/
theorem job_no_readiness_recheck_witness :
    runTextJob
      (onDisconnected
        { client := some 9, qrCodeData := none,
          isClientReady := true, isInitializing := false }) "555" "hi"
      = Except.ok [Event.sendText 9 ("555" ++ "@c.us") "hi"]
    ∧ runTextJob
      (closeWhatsAppSession
        { client := some 9, qrCodeData := none,
          isClientReady := true, isInitializing := false }).1 "555" "hi"
      = Except.error () :=
  ⟨(job_no_readiness_recheck _ "555" "hi" 9 rfl).1,
   (job_no_readiness_recheck
     { client := some 9, qrCodeData := none, isClientReady := true,
       isInitializing := false } "555" "hi" 9 rfl).2.2.2⟩

end Wap3
